import Mathlib

/-!
# xray-exporter: shallow embedding and verification

This file embeds the reconciliation engine of the `xray-exporter` repository
(`src/main.go`, `src/config.go`) in Lean 4 and settles the specification
claims against it.

Modelling conventions:
* Go `string` is Lean `String`; segment manipulation works on the underlying
  `List Char` (`String.data`), with `strings.Split(s, ">>>")` embedded as
  `splitDelim` and `strings.Contains(s, ">>>traffic>>>")` as `hasMark`.
* Go `int64` stat values are `Int` (no arithmetic is performed on them, only
  a comparison with 0, so overflow is irrelevant).
* A fallible RPC call is an `Option` result: `none` models the `err != nil`
  branch.
* The `xray_user_ip_online` GaugeVec's contents are a
  `Finset (String × String)` of (user, ip) pairs currently set to 1
  (a GaugeVec is keyed by its label tuple, so its contents are a set).
* The Go `for user := range users` map iteration has nondeterministic order;
  the committed set is order-independent (a union), and trace-based
  statements are made for the particular order `usersOf` produces, which is
  a realizable iteration order.
-/

namespace XrayExporter

/-- A raw upstream stat row (`stat.Name`, `stat.Value` in `main.go`). -/
structure Stat where
  name : String
  value : Int
deriving DecidableEq, Repr

/-- A traffic sample emitted by the pull collector: the label tuple
`(type, name, direction)` and the counter value. -/
structure TrafficSample where
  typ : String
  label : String
  direction : String
  value : Int
deriving DecidableEq, Repr

/-- `hasPre pat s` is true when `pat` is an initial run of `s`
(byte-for-byte, as Go substring search compares). -/
def hasPre : List Char → List Char → Bool
  | [], _ => true
  | _ :: _, [] => false
  | a :: as, b :: bs => a == b && hasPre as bs

/-- The marker Go's `Collect` looks for: `strings.Contains(stat.Name, ">>>traffic>>>")`. -/
def markChars : List Char := ">>>traffic>>>".data

/-- `strings.Contains(name, ">>>traffic>>>")` from `main.go` line 97. -/
def hasMark : List Char → Bool
  | [] => false
  | c :: rest => hasPre markChars (c :: rest) || hasMark rest

/-- `strings.Split(s, ">>>")`: greedy left-to-right split on the fixed
delimiter, as in `main.go` (`Collect` and `parseUser`). `splitDelim [] = [[]]`
matches Go's `Split("", sep) = [""]`. -/
def splitDelim : List Char → List (List Char)
  | '>' :: '>' :: '>' :: rest => [] :: splitDelim rest
  | c :: rest =>
    match splitDelim rest with
    | [] => [[c]]
    | seg :: segs => (c :: seg) :: segs
  | [] => [[]]

/-- `parseUser` from `main.go`: split on `>>>`; fewer than 2 segments is
"not ok", otherwise return segment 1. -/
def parseUser (statName : String) : Option String :=
  match splitDelim statName.data with
  | _ :: u :: _ => some ⟨u⟩
  | _ => none

/-- The distinct users discovered from a response's rows
(the `users` map built in `scrapeOnlineUsersAndHealth`). -/
def usersOf (stats : List Stat) : List String :=
  ((stats.map Stat.name).filterMap parseUser).dedup

/-- The query key built for a user's online-IP fetch:
`"user>>>" + user + ">>>online"`. -/
def onlineKey (user : String) : String :=
  "user>>>" ++ user ++ ">>>online"

/-! ## Pull collector (`XrayTrafficCollector.Collect`) -/

/-- One iteration of the `Collect` loop body for a single row: skip
zero-valued rows, require the `>>>traffic>>>` marker, require at least 4
segments, then emit labels from segments 0, 1 and 3. -/
def collectStat (st : Stat) : Option TrafficSample :=
  if st.value = 0 then none
  else if hasMark st.name.data then
    match splitDelim st.name.data with
    | t :: n :: _ :: d :: _ => some ⟨⟨t⟩, ⟨n⟩, ⟨d⟩, st.value⟩
    | _ => none
  else none

/-- The samples one `Collect` call sends on its channel, in row order. -/
def collect (stats : List Stat) : List TrafficSample :=
  stats.filterMap collectStat

/-- The value the exposed `xray_traffic_bytes_total` series reports for one
identity at a scrape served from `stats` (none = series absent). -/
def trafficValue (stats : List Stat) (t n d : String) : Option Int :=
  ((collect stats).find? fun s =>
    s.typ == t && s.label == n && s.direction == d).map TrafficSample.value

/-- A whole `Collect` call including the `QueryStats` RPC: `resp = none`
models the error branch, which logs, sends nothing, and deliberately leaves
`xrayUp` alone (`up` is the current `xray_up` gauge value). -/
def collectRun (resp : Option (List Stat)) (up : Bool) :
    List TrafficSample × Bool :=
  match resp with
  | none => ([], up)
  | some stats => (collect stats, up)

/-! ## Online-IP reconciliation (`scrapeOnlineUsersAndHealth`) -/

/-- The online-IP portion of the metric state store: the set of (user, ip)
pairs the `xray_user_ip_online` GaugeVec currently exposes with value 1. -/
abbrev Store := Finset (String × String)

/-- Processing of one user inside the rebuild loop: a failed
`GetStatsOnlineIpList` (`none`) is skipped with `continue`; a successful one
sets the gauge to 1 for each returned ip. `f` maps the query key to the
fetched ip set. -/
def stepUser (f : String → Option (List String)) (acc : Store) (u : String) :
    Store :=
  match f (onlineKey u) with
  | none => acc
  | some ips => acc ∪ (ips.map fun ip => (u, ip)).toFinset

/-- The rebuild loop over the discovered users, starting from the store
contents right after `xrayUserIPOnline.Reset()` (the empty set). -/
def rebuild (f : String → Option (List String)) :
    List String → Store → Store
  | [], acc => acc
  | u :: us, acc => rebuild f us (stepUser f acc u)

/-- `scrapeOnlineUsersAndHealth`: if the initial `QueryStats("user>>>")`
call fails the function returns the error before touching the store;
otherwise it resets the gauge and rebuilds it user by user. The `Bool`
component is `true` iff the function returns `nil` (success). -/
def scrapeOnlineUsersAndHealth (store : Store) (query : Option (List Stat))
    (f : String → Option (List String)) : Store × Bool :=
  match query with
  | none => (store, false)
  | some stats => (rebuild f (usersOf stats) ∅, true)

/-- The store contents after one cycle. -/
def onlineAfter (store : Store) (query : Option (List Stat))
    (f : String → Option (List String)) : Store :=
  (scrapeOnlineUsersAndHealth store query f).1

/-- The sequence of store states a concurrent reader can observe during the
rebuild loop: the state before each user is processed, and the final state.
Each Prometheus vec operation (`Reset`, `Set`) is individually atomic, but
nothing serializes the sequence, and a per-user RPC runs between
consecutive writes. -/
def rebuildTrace (f : String → Option (List String)) :
    List String → Store → List Store
  | [], acc => [acc]
  | u :: us, acc => acc :: rebuildTrace f us (stepUser f acc u)

/-- All store states a concurrent scrape can observe during one cycle:
the pre-cycle state, then (on the success path) the state right after
`Reset()` — the empty set — followed by the growing partial sets. -/
def cycleTrace (store : Store) (query : Option (List Stat))
    (f : String → Option (List String)) : List Store :=
  match query with
  | none => [store]
  | some stats => store :: rebuildTrace f (usersOf stats) ∅

/-! ## Scheduler (`scrapeLoop`) -/

/-- `scrapeInterval = 5 * time.Second`, in seconds. -/
def scrapeInterval : Nat := 5

/-- `failInterval = 15 * time.Second`, in seconds. -/
def failInterval : Nat := 15

/-- The failure-counter update at the end of a cycle: reset to 0 on
success, increment on failure. -/
def nextFailCount (fc : Nat) (ok : Bool) : Nat :=
  if ok then 0 else fc + 1

/-- The failure-count-to-interval mapping: `sleep := scrapeInterval;
if failCount >= 3 { sleep = failInterval }`. -/
def sleepFor (fc : Nat) : Nat :=
  if 3 ≤ fc then failInterval else scrapeInterval

/-- The failure counter after a sequence of cycle outcomes
(`true` = success), starting from the loop's initial `failCount := 0`. -/
def failCountAfter (outcomes : List Bool) : Nat :=
  outcomes.foldl nextFailCount 0

/-- The inter-cycle delay chosen after a sequence of cycle outcomes. -/
def sleepAfter (outcomes : List Bool) : Nat :=
  sleepFor (failCountAfter outcomes)

/-! ## Configuration (`config.go`) -/

/-- The decimal value of a digit string (what `strconv.ParseUint(v, 10, _)`
computes when every character is a decimal digit). -/
def decimalValue (v : String) : Nat :=
  v.data.foldl (fun acc c => acc * 10 + (c.toNat - 48)) 0

/-- `strconv.ParseUint(v, 10, 16)`: fails on the empty string, on any
non-digit character (base 10 admits no sign, no underscores, only `0-9`),
and on values exceeding 16 bits. -/
def parseUint16 (v : String) : Option Nat :=
  if v = "" then none
  else if v.data.all Char.isDigit then
    if decimalValue v < 65536 then some (decimalValue v) else none
  else none

/-- The `Port` field initializer of `AppConfig`: use `PORT` when it is set
and parses as a 16-bit unsigned decimal, else 9100. The argument is the
value of `os.Getenv("PORT")` (the empty string when unset). -/
def configPort (v : String) : Nat :=
  if v ≠ "" then
    match parseUint16 v with
    | some p => p
    | none => 9100
  else 9100

/-- The `XrayApi` field initializer of `AppConfig`: `XRAY_API` when
nonempty, else the default address. -/
def configXrayApi (v : String) : String :=
  if v ≠ "" then v else "127.0.0.1:8080"

/-! ## Spec-side formalizations used for refutation -/

/-- `rowNames st t n d` holds when row `st` yields a traffic sample carrying
exactly the identity `(t, n, d)`. -/
def rowNames (st : Stat) (t n d : String) : Bool :=
  match collectStat st with
  | none => false
  | some sm => sm.typ == t && sm.label == n && sm.direction == d

/-- The atomicity property the spec asserts of the online-IP
reconciliation: every state observable during a cycle is either the
fully-old set or the fully-new set, and no transiently empty state is
observable when the cycle produces a nonempty new set (unless the old set
was itself empty). Stated from the spec's words, to be compared against
the embedded code. -/
def ReaderConsistent (store : Store) (query : Option (List Stat))
    (f : String → Option (List String)) : Prop :=
  (∀ t ∈ cycleTrace store query f,
      t = store ∨ t = onlineAfter store query f) ∧
  (onlineAfter store query f ≠ ∅ →
    ∀ t ∈ cycleTrace store query f, t = ∅ → store = ∅)

/-! ## Helper lemmas -/

/-- Membership after processing a single user in the rebuild loop. -/
lemma mem_stepUser (f : String → Option (List String)) (acc : Store)
    (u : String) (p : String × String) :
    p ∈ stepUser f acc u ↔
      p ∈ acc ∨ ∃ ips, f (onlineKey u) = some ips ∧ p.1 = u ∧ p.2 ∈ ips := by
  unfold stepUser
  cases h : f (onlineKey u) with
  | none => simp [h]
  | some ips =>
    obtain ⟨p1, p2⟩ := p
    simp only [h, Finset.mem_union, List.mem_toFinset, List.mem_map,
      Option.some.injEq]
    constructor
    · rintro (hp | ⟨ip, hip, heq⟩)
      · exact Or.inl hp
      · obtain ⟨h1, h2⟩ := Prod.mk.injEq .. ▸ heq
        exact Or.inr ⟨ips, rfl, h1.symm, h2 ▸ hip⟩
    · rintro (hp | ⟨ips', hips', h1, h2⟩)
      · exact Or.inl hp
      · obtain rfl := hips'
        exact Or.inr ⟨p2, h2, by simp [h1]⟩

/-- Membership in the rebuilt store. -/
lemma mem_rebuild (f : String → Option (List String)) (us : List String)
    (acc : Store) (p : String × String) :
    p ∈ rebuild f us acc ↔
      p ∈ acc ∨ ∃ u ∈ us, ∃ ips,
        f (onlineKey u) = some ips ∧ p.1 = u ∧ p.2 ∈ ips := by
  induction us generalizing acc with
  | nil => simp [rebuild]
  | cons u us ih =>
    rw [rebuild, ih, mem_stepUser]
    constructor
    · rintro ((hp | ⟨ips, hips, h1, h2⟩) | ⟨u', hu', hrest⟩)
      · exact Or.inl hp
      · exact Or.inr ⟨u, List.mem_cons_self u us, ips, hips, h1, h2⟩
      · exact Or.inr ⟨u', List.mem_cons_of_mem u hu', hrest⟩
    · rintro (hp | ⟨u', hu', hrest⟩)
      · exact Or.inl (Or.inl hp)
      · rcases List.mem_cons.mp hu' with rfl | hu'
        · exact Or.inl (Or.inr hrest)
        · exact Or.inr ⟨u', hu', hrest⟩

/-- Membership in the store committed by a successful cycle. -/
lemma mem_onlineAfter (store : Store) (stats : List Stat)
    (f : String → Option (List String)) (p : String × String) :
    p ∈ onlineAfter store (some stats) f ↔
      ∃ u ∈ usersOf stats, ∃ ips,
        f (onlineKey u) = some ips ∧ p.1 = u ∧ p.2 ∈ ips := by
  unfold onlineAfter scrapeOnlineUsersAndHealth
  rw [mem_rebuild]
  simp

/-- The rebuild trace starts at the accumulator it is given. -/
lemma rebuildTrace_head (f : String → Option (List String))
    (us : List String) (acc : Store) :
    (rebuildTrace f us acc).head? = some acc := by
  cases us <;> rfl

/-- The rebuild trace ends at the rebuilt store. -/
lemma rebuildTrace_getLast (f : String → Option (List String)) :
    ∀ (us : List String) (acc : Store),
      (rebuildTrace f us acc).getLast? = some (rebuild f us acc)
  | [], acc => rfl
  | u :: us, acc => by
    rw [rebuildTrace, rebuild]
    cases h : rebuildTrace f us (stepUser f acc u) with
    | nil =>
      have := rebuildTrace_getLast f us (stepUser f acc u)
      rw [h] at this
      exact absurd this (by simp)
    | cons b l =>
      rw [List.getLast?_cons_cons, ← h, rebuildTrace_getLast f us]

/-- Processing one more user only ever adds presence facts. -/
lemma stepUser_subset (f : String → Option (List String)) (acc : Store)
    (u : String) : acc ⊆ stepUser f acc u := by
  unfold stepUser
  cases f (onlineKey u) with
  | none => exact Finset.Subset.refl acc
  | some ips => exact Finset.subset_union_left

/-- Along the rebuild trace the store only grows. -/
lemma rebuildTrace_chain (f : String → Option (List String)) :
    ∀ (us : List String) (acc : Store),
      List.Chain' (· ⊆ ·) (rebuildTrace f us acc)
  | [], acc => List.chain'_singleton acc
  | u :: us, acc => by
    rw [rebuildTrace, List.chain'_cons']
    refine ⟨fun b hb => ?_, rebuildTrace_chain f us _⟩
    rw [rebuildTrace_head] at hb
    obtain rfl := Option.mem_some_iff.mp hb
    exact stepUser_subset f acc u

/-! ## Concrete inputs used by counterexamples and witnesses -/

/-- Pre-cycle store: alice was online at 1.2.3.4 in the previous poll. -/
def exStore : Store := {("alice", "1.2.3.4")}

/-- New poll: a single row discovering user bob. -/
def exQuery : Option (List Stat) :=
  some [⟨"user>>>bob>>>traffic>>>uplink", 10⟩]

/-- Per-user fetch: bob's lookup returns 5.6.7.8; every other lookup fails. -/
def exFetch : String → Option (List String) := fun k =>
  if k = onlineKey "bob" then some ["5.6.7.8"] else none

/-- Rows for the partial-failure scenario: both alice and bob discovered. -/
def exStats2 : List Stat :=
  [⟨"user>>>alice>>>traffic>>>uplink", 1⟩,
   ⟨"user>>>bob>>>traffic>>>uplink", 1⟩]

/-! ## Claims -/

/-- C3: when the initial `QueryStats("user>>>")` call fails, the
online-IP store after the cycle is exactly the store before the cycle
(the function returns before `Reset()`), and the cycle reports failure. -/
theorem total_failure_preserves_store (store : Store)
    (f : String → Option (List String)) :
    scrapeOnlineUsersAndHealth store none f = (store, false) := rfl

/-- C7: a `Collect` call whose upstream `QueryStats` fails emits zero
samples, returns normally, and leaves the `xray_up` gauge exactly as it
was (for any current value of the gauge). -/
theorem pull_error_isolated (up : Bool) : collectRun none up = ([], up) := rfl

/-- C8: a row whose name splits into fewer than 4 segments produces no
traffic sample; the row is skipped and no error is raised (`collectStat`
is total and returns `none`). -/
theorem short_names_skipped (st : Stat)
    (h : (splitDelim st.name.data).length < 4) : collectStat st = none := by
  rcases hsp : splitDelim st.name.data with _ | ⟨a, _ | ⟨b, _ | ⟨c, _ | ⟨d, rest⟩⟩⟩⟩
  · unfold collectStat
    rw [hsp]
    split
    · rfl
    · split <;> rfl
  · unfold collectStat
    rw [hsp]
    split
    · rfl
    · split <;> rfl
  · unfold collectStat
    rw [hsp]
    split
    · rfl
    · split <;> rfl
  · unfold collectStat
    rw [hsp]
    split
    · rfl
    · split <;> rfl
  · rw [hsp] at h
    simp at h
    omega

/-- Witness for C8 at a concrete 3-segment row. -/
theorem short_names_skipped_witness :
    collectStat ⟨"user>>>alice>>>online", 9⟩ = none :=
  short_names_skipped ⟨"user>>>alice>>>online", 9⟩ (by decide)

/-- C9: running the online reconciliation twice with the identical query
result and per-user fetches yields the same store as running it once, and
a second pull-collector read served from the identical response (starting
from the state the first read left behind) produces the identical output.
No value drifts and no series is duplicated. -/
theorem reconcile_idempotent (s : Store) (q : Option (List Stat))
    (f : String → Option (List String)) (resp : Option (List Stat))
    (up : Bool) :
    onlineAfter (onlineAfter s q f) q f = onlineAfter s q f ∧
    collectRun resp (collectRun resp up).2 = collectRun resp up := by
  constructor
  · cases q <;> rfl
  · cases resp <;> rfl

/-- C5: within one successful cycle, when user `u`'s online-IP fetch fails
and user `v`'s succeeds, the committed store contains every (v, ip) fact
the successful fetch returned and contains no entry at all for `u`: the
failed user's prior facts are not retained (the `Reset()` removed them)
and none are fabricated (the `continue` writes nothing). -/
theorem partial_failure_isolation (store : Store) (stats : List Stat)
    (f : String → Option (List String)) (u v : String) (ips : List String)
    (hu : u ∈ usersOf stats) (hv : v ∈ usersOf stats)
    (hfu : f (onlineKey u) = none) (hfv : f (onlineKey v) = some ips) :
    (∀ ip ∈ ips, (v, ip) ∈ onlineAfter store (some stats) f) ∧
    ∀ ip, (u, ip) ∉ onlineAfter store (some stats) f := by
  constructor
  · intro ip hip
    rw [mem_onlineAfter]
    exact ⟨v, hv, ips, hfv, rfl, hip⟩
  · intro ip hmem
    rw [mem_onlineAfter] at hmem
    obtain ⟨u', hu', ips', hf', h1, h2⟩ := hmem
    rw [show ((u, ip) : String × String).1 = u from rfl] at h1
    rw [← h1] at hf'
    rw [hfu] at hf'
    exact Option.noConfusion hf'

/-- Witness for C5: alice's fetch fails, bob's returns 5.6.7.8; after the
cycle bob is online at 5.6.7.8 and alice has no entry. -/
theorem partial_failure_isolation_witness :
    ("bob", "5.6.7.8") ∈ onlineAfter exStore (some exStats2) exFetch ∧
    ("alice", "1.2.3.4") ∉ onlineAfter exStore (some exStats2) exFetch := by
  have h := partial_failure_isolation exStore exStats2 exFetch
    "alice" "bob" ["5.6.7.8"] (by decide) (by decide) (by decide) (by decide)
  exact ⟨h.1 "5.6.7.8" (by decide), h.2 "1.2.3.4"⟩

/-- C6: the failure-count-to-interval mapping yields the base interval
(5s) for counts 0..2 and the backoff interval (15s) for counts ≥ 3; hence
after any history ending in 3 consecutive failures the next delay is the
backoff interval, and after any history ending in a success it is the base
interval again. -/
theorem backoff_schedule (pre : List Bool) :
    sleepAfter (pre ++ [false, false, false]) = failInterval ∧
    sleepAfter (pre ++ [true]) = scrapeInterval ∧
    ∀ fc : Nat, (fc < 3 → sleepFor fc = scrapeInterval) ∧
      (3 ≤ fc → sleepFor fc = failInterval) := by
  refine ⟨?_, ?_, ?_⟩
  · unfold sleepAfter failCountAfter
    rw [List.foldl_append]
    simp only [List.foldl, nextFailCount, if_neg Bool.false_ne_true]
    unfold sleepFor
    rw [if_pos (by omega)]
  · unfold sleepAfter failCountAfter
    rw [List.foldl_append]
    simp only [List.foldl, nextFailCount, if_pos rfl]
    rfl
  · intro fc
    constructor
    · intro h
      unfold sleepFor
      rw [if_neg (by omega)]
    · intro h
      unfold sleepFor
      rw [if_pos h]

/-- Witness for C6: three straight failures from a fresh loop give the
15-second delay, one success gives the 5-second delay, and the mapping at
counts 3 and 2 agrees. -/
theorem backoff_schedule_witness :
    sleepAfter [false, false, false] = failInterval ∧
    sleepAfter [true] = scrapeInterval ∧
    sleepFor 3 = failInterval ∧ sleepFor 2 = scrapeInterval := by
  obtain ⟨h1, h2, h3⟩ := backoff_schedule []
  exact ⟨h1, h2, (h3 3).2 (by decide), (h3 2).1 (by decide)⟩

/-- C10: configuration construction is total. `PORT` unset/empty,
non-numeric, or out of 16-bit range falls back to 9100; a nonempty all-digit
value within range is used exactly. `XRAY_API` unset/empty falls back to
`127.0.0.1:8080`; a nonempty value is used exactly. (`v` exercises the
non-numeric case, `w` the out-of-range case, `x` the exact-use case, `y`
the upstream address.) -/
theorem config_totality (v w x y : String)
    (hv : ¬ v.data.all Char.isDigit = true)
    (hw : 65536 ≤ decimalValue w)
    (hx : x ≠ "") (hxd : x.data.all Char.isDigit = true)
    (hxlt : decimalValue x < 65536)
    (hy : y ≠ "") :
    configPort "" = 9100 ∧
    configPort v = 9100 ∧
    configPort w = 9100 ∧
    configPort x = decimalValue x ∧
    configXrayApi "" = "127.0.0.1:8080" ∧
    configXrayApi y = y := by
  refine ⟨rfl, ?_, ?_, ?_, rfl, ?_⟩
  · unfold configPort parseUint16
    by_cases hv0 : v = ""
    · rw [if_neg (by simp [hv0])]
    · rw [if_pos hv0, if_neg hv0, if_neg hv]
  · unfold configPort parseUint16
    by_cases hw0 : w = ""
    · rw [if_neg (by simp [hw0])]
    · rw [if_pos hw0, if_neg hw0]
      by_cases hwd : w.data.all Char.isDigit = true
      · rw [if_pos hwd, if_neg (by omega)]
      · rw [if_neg hwd]
  · unfold configPort parseUint16
    rw [if_pos hx, if_neg hx, if_pos hxd, if_pos hxlt]
  · unfold configXrayApi
    rw [if_pos hy]

/-- Witness for C10: `PORT=abc` and `PORT=70000` fall back to 9100,
`PORT=9090` is used exactly, `XRAY_API=10.0.0.1:8080` is used exactly. -/
theorem config_totality_witness :
    configPort "" = 9100 ∧
    configPort "abc" = 9100 ∧
    configPort "70000" = 9100 ∧
    configPort "9090" = decimalValue "9090" ∧
    configXrayApi "" = "127.0.0.1:8080" ∧
    configXrayApi "10.0.0.1:8080" = "10.0.0.1:8080" :=
  config_totality "abc" "70000" "9090" "10.0.0.1:8080"
    (by decide) (by decide) (by decide) (by decide) (by decide) (by decide)

/-- C1 counterexample: with alice online from the previous poll and the
new poll discovering bob (whose fetch succeeds with 5.6.7.8), the state
observable right after `Reset()` is the empty set — neither the fully-old
set nor the fully-new set, and transiently empty although new data is
available. The code clears the shared GaugeVec in place and refills it
across per-user RPC round-trips, so the claimed indivisibility fails. -/
theorem atomic_swap_counterexample :
    ¬ ReaderConsistent exStore exQuery exFetch := by
  intro hc
  have h1 := hc.1 ∅ (by decide)
  rcases h1 with h | h
  · exact absurd h (by decide)
  · exact absurd h (by decide)

/-- C1 amended: the observable states of a successful cycle are the
pre-cycle store, then — immediately after `Reset()` — the empty set, then
a monotonically growing sequence of partial sets, ending at exactly the
new poll's committed set. A reader can thus observe the transient empty
and partially rebuilt states; only the trace's last state is the complete
new set. -/
theorem cycle_trace_shape (store : Store) (stats : List Stat)
    (f : String → Option (List String)) :
    (cycleTrace store (some stats) f).head? = some store ∧
    (cycleTrace store (some stats) f).tail.head? = some ∅ ∧
    (cycleTrace store (some stats) f).getLast? =
      some (onlineAfter store (some stats) f) ∧
    List.Chain' (· ⊆ ·) (cycleTrace store (some stats) f).tail := by
  refine ⟨rfl, ?_, ?_, ?_⟩
  · rw [cycleTrace, List.tail_cons, rebuildTrace_head]
  · rw [cycleTrace]
    cases h : rebuildTrace f (usersOf stats) ∅ with
    | nil =>
      have := rebuildTrace_head f (usersOf stats) ∅
      rw [h] at this
      exact absurd this (by simp)
    | cons b l =>
      rw [List.getLast?_cons_cons, ← h, rebuildTrace_getLast]
      rfl
  · rw [cycleTrace, List.tail_cons]
    exact rebuildTrace_chain f (usersOf stats) ∅

/-- C2 counterexample: the traffic identity (user, alice, uplink) is
exposed with value 1000 at a scrape served from cycle-1 rows, and the rows
of cycle 2 omit it entirely; the scrape served from cycle-2 rows exposes
nothing for that identity — the value 1000 is not retained, because the
pull collector keeps no store between reads. -/
theorem stale_retention_counterexample :
    trafficValue [⟨"user>>>alice>>>traffic>>>uplink", 1000⟩]
      "user" "alice" "uplink" = some 1000 ∧
    trafficValue [] "user" "alice" "uplink" = none := by decide

/-- C2 amended: traffic counters are served by the pull collector, which
keeps no state between reads; a scrape exposes exactly the identities
named by the current response's rows, so an identity entirely absent from
cycle 2's rows is absent from cycle 2's exposed series (neither the old
value nor zero). -/
theorem pull_no_retention (stats : List Stat) (t n d : String)
    (h : ∀ st ∈ stats, rowNames st t n d = false) :
    trafficValue stats t n d = none := by
  unfold trafficValue
  suffices hfind : ((collect stats).find? fun s =>
      s.typ == t && s.label == n && s.direction == d) = none by
    rw [hfind]
    rfl
  rw [List.find?_eq_none]
  intro sm hsm
  obtain ⟨st, hst, hc⟩ := List.mem_filterMap.mp hsm
  have hr := h st hst
  rw [rowNames, hc] at hr
  exact fun hcontra => Bool.false_ne_true (hr.symm.trans hcontra)

/-- Witness for C2 amended: cycle 2 returns one row naming only bob, so
the alice identity is absent from the exposed output. -/
theorem pull_no_retention_witness :
    trafficValue [⟨"user>>>bob>>>traffic>>>uplink", 7⟩]
      "user" "alice" "uplink" = none :=
  pull_no_retention [⟨"user>>>bob>>>traffic>>>uplink", 7⟩]
    "user" "alice" "uplink" (by decide)

/-- C4 counterexample: two 4-segment names differing only in segment 2,
with the same nonzero value; the one whose segment 2 is not `traffic`
emits no sample (it fails the `strings.Contains(name, ">>>traffic>>>")`
guard), the other emits one — so segment 2's content does influence
whether a sample is emitted. -/
theorem traffic_seg2_counterexample :
    (splitDelim "alpha>>>beta>>>gamma>>>delta".data).length = 4 ∧
    collect [⟨"alpha>>>beta>>>gamma>>>delta", 5⟩] = [] ∧
    collect [⟨"alpha>>>beta>>>traffic>>>delta", 5⟩] =
      [⟨"alpha", "beta", "delta", 5⟩] := by decide

/-- C4 amended: a row with nonzero value whose name contains the
`>>>traffic>>>` marker and splits into at least 4 segments emits exactly
one sample, whose (type, name, direction) labels are segments 0, 1 and 3;
segment 2 never appears in the emitted labels, but its content does
influence *whether* the sample is emitted (via the marker guard, as the
counterexample shows). -/
theorem traffic_labels_from_segments (st : Stat) (t n s2 d : List Char)
    (rest : List (List Char)) (h0 : st.value ≠ 0)
    (hm : hasMark st.name.data = true)
    (hsp : splitDelim st.name.data = t :: n :: s2 :: d :: rest) :
    collectStat st = some ⟨⟨t⟩, ⟨n⟩, ⟨d⟩, st.value⟩ := by
  unfold collectStat
  rw [if_neg h0, if_pos hm, hsp]

/-- Witness for C4 amended at the spec's round-trip example row. -/
theorem traffic_labels_from_segments_witness :
    collectStat ⟨"user>>>alice>>>traffic>>>uplink", 738059⟩ =
      some ⟨"user", "alice", "uplink", 738059⟩ :=
  traffic_labels_from_segments ⟨"user>>>alice>>>traffic>>>uplink", 738059⟩
    "user".data "alice".data "traffic".data "uplink".data []
    (by decide) (by decide) (by decide)

end XrayExporter
